import Mathlib

/-!
# Formal model of the EC3 airport simulation engine

A shallow embedding, in Lean 4, of the simulation engine of the
EC3_backend repository (`model.py`, `agentes/airplane.py`,
`agentes/controltower.py`, `agentes/airline.py`), together with proofs
of the behavioural properties stated in the specification.

Conventions of the embedding:
* Python `int` becomes `Int` (or `Nat` where the source value is a count
  that is only ever incremented), Python `float` constants used in the
  scheduler's arithmetic become `ℚ` (exact rational arithmetic; every
  float literal in the scheduler is a short decimal, representable
  exactly as a rational).
* Stateful code becomes explicit state passing: each mutating method is
  a function from the state to the updated state, returning in addition
  a record of the side effects it performs on the surrounding model
  (counter increments, list registrations, removal requests).
* Randomness (`random.random`, `random.randint`, `random.choices`) is
  passed in as explicit oracle inputs, so every draw is an argument of
  the step function.
-/

namespace EC3

/-- The aircraft lifecycle states of `agentes/airplane.py`
(`arriving, holding, waiting, queued_departure, departing, diverted, gone`). -/
inductive PlaneState
  | arriving
  | holding
  | waiting
  | queued_departure
  | departing
  | diverted
  | gone
deriving DecidableEq, Repr

/-- The three values of `punctuality_status` in `agentes/airplane.py`. -/
inductive Punctuality
  | early
  | on_time
  | delayed
deriving DecidableEq, Repr

/-- The six weather regimes of `model.py` (`CLIMAS`). -/
inductive Clima
  | normal
  | lluvia
  | tormenta
  | viento_fuerte
  | niebla
  | microburst
deriving DecidableEq, Repr

/-- The three values of `control_policy` recognised by
`ControlTower.programar_aterrizaje` (any string other than `"fixed"` and
`"fuel_priority"` falls into the `else` branch, i.e. behaves as
`dynamic`; we model the three equivalence classes). -/
inductive Policy
  | fixed
  | fuel_priority
  | dynamic
deriving DecidableEq, Repr

/-- The mutable per-aircraft state of `Airplane.__init__`
(`agentes/airplane.py`).  The float field `angle` and the derived
`orbit_path`/`orbit_index` are omitted: `angle` is used only through
floating-point trigonometry to pick the next orbit cell while holding,
and `orbit_path` is never read by any transition; the orbit cell chosen
while holding is therefore supplied as an oracle input of `step`
(`StepEnv.orbit_pos`).  `priority_weight` is the
`type_info["priority_weight"]` constant of the aircraft's type
(returned by `get_type_priority_weight`). -/
structure Airplane where
  unique_id : Nat
  state : PlaneState
  combustible_restante : Int
  prioridad : Nat
  emergencia : Bool
  emergencia_registrada : Bool
  holding_time : Nat
  goaround_blink : Nat
  wait_time : Int
  scheduled_arrival_time : Int
  actual_arrival_time : Int
  punctuality_status : Punctuality
  priority_weight : ℚ
  pos : Int × Int
  center : Int × Int
  exit_target : Int × Int
deriving DecidableEq, Repr

/-- `Airplane.update_punctuality` (`agentes/airplane.py` lines 102-117):
classifies the flight as early / delayed / on-time from the difference
between `actual_arrival_time` and `scheduled_arrival_time` with a
tolerance of 10 minutes, and bumps `prioridad` from 0 to 1 for delayed
flights (the `early` branch's `if self.prioridad == 0: self.prioridad = 0`
is a no-op, and is embedded as such). -/
def Airplane.update_punctuality (p : Airplane) : Airplane :=
  let diff := p.actual_arrival_time - p.scheduled_arrival_time
  if diff < -10 then
    { p with punctuality_status := .early }
  else if diff > 10 then
    { p with punctuality_status := .delayed,
             prioridad := if p.prioridad = 0 then 1 else p.prioridad }
  else
    { p with punctuality_status := .on_time }

/-- `Airplane.move_towards` (`agentes/airplane.py` lines 165-181): move
one king-step toward `target`, staying put if the destination cell would
leave the `w × h` grid. -/
def move_towards (w h : Int) (pos target : Int × Int) : Int × Int :=
  let dx : Int := if target.1 - pos.1 > 0 then 1 else if target.1 - pos.1 < 0 then -1 else 0
  let dy : Int := if target.2 - pos.2 > 0 then 1 else if target.2 - pos.2 < 0 then -1 else 0
  let np : Int × Int := (pos.1 + dx, pos.2 + dy)
  if 0 ≤ np.1 ∧ np.1 < w ∧ 0 ≤ np.2 ∧ np.2 < h then np else pos

/-- The parts of the surrounding model read by `Airplane.step`, plus the
random draws it makes, passed as explicit inputs.
* `ground_full` is `model.planes_on_ground() >= model.max_ground`;
* `in_holding_list` is `self in model.holding_planes`;
* `goaround_draw` is `random.random() < 0.03`;
* `goaround_loss` is `random.randint(20, 40)`;
* `orbit_pos` is the (already clamped) orbit cell computed from the
  float trigonometry of the holding branch. -/
structure StepEnv where
  minutes_per_step : Int
  ground_full : Bool
  in_holding_list : Bool
  allow_diversion : Bool
  max_holding_time : Nat
  goaround_draw : Bool
  goaround_loss : Nat
  orbit_pos : Int × Int
  grid_w : Int
  grid_h : Int
deriving DecidableEq, Repr

/-- The side effects of one `Airplane.step` on model-level state:
counter increments and membership operations on the shared collections. -/
structure StepEffects where
  emergency_events : Nat
  goaround_events : Nat
  total_arrivals : Nat
  total_diverted : Nat
  total_departures : Nat
  holding_registered : Bool
  holding_removed : Bool
  enqueued_departure : Bool
  removal_requested : Bool
deriving DecidableEq, Repr

/-- No side effect. -/
def noEffects : StepEffects :=
  ⟨0, 0, 0, 0, 0, false, false, false, false⟩

/-- The opening phase of `Airplane.step` (`agentes/airplane.py` lines
185-194): advance the flight clock, count the go-around blink down,
and consume one unit of fuel (floored at 0) while airborne. -/
def consumo (p₀ : Airplane) (env : StepEnv) : Airplane :=
  let p := { p₀ with actual_arrival_time := p₀.actual_arrival_time + env.minutes_per_step }
  let p := if p.goaround_blink > 0 then { p with goaround_blink := p.goaround_blink - 1 } else p
  if p.state = .arriving ∨ p.state = .holding then
    { p with combustible_restante := max 0 (p.combustible_restante - 1) }
  else p

/-- The low-fuel emergency-activation phase of `Airplane.step`
(`agentes/airplane.py` lines 196-204): with the flag unset and fuel at
or below 10, flag the emergency and escalate to priority 2; the model's
`emergency_events` counter is incremented only the first time in the
aircraft's life (`emergencia_registrada`). -/
def activar_emergencia (p : Airplane) : Airplane × StepEffects :=
  if p.emergencia = false ∧ p.combustible_restante ≤ 10 then
    let q := { p with emergencia := true, prioridad := 2 }
    if q.emergencia_registrada = false then
      ({ q with emergencia_registrada := true },
       { noEffects with emergency_events := 1 })
    else (q, noEffects)
  else (p, noEffects)

/-- The `arriving` branch of `Airplane.step` (lines 210-229). -/
def step_arriving (p : Airplane) (env : StepEnv) (eff : StepEffects) :
    Airplane × StepEffects :=
  if env.ground_full then
    ({ p with state := .holding, holding_time := 0 },
     { eff with holding_registered := !env.in_holding_list })
  else
    let p := { p with pos := move_towards env.grid_w env.grid_h p.pos p.center }
    if p.pos = p.center then
      ({ p with state := .waiting },
       { eff with total_arrivals := 1, holding_removed := env.in_holding_list })
    else (p, eff)

/-- The `holding` branch of `Airplane.step` (lines 231-275): count the
holding time, possibly suffer a go-around (only when not already an
emergency), possibly divert (only when permitted, not an emergency, and
the holding timeout is reached), otherwise orbit. -/
def step_holding (p : Airplane) (env : StepEnv) (eff : StepEffects) :
    Airplane × StepEffects :=
  let p := { p with holding_time := p.holding_time + 1 }
  let ga :=
    if p.emergencia = false ∧ env.goaround_draw then
      let q := { p with
        combustible_restante := max 0 (p.combustible_restante - env.goaround_loss),
        emergencia := true, prioridad := 2, goaround_blink := 2 }
      let eff := { eff with goaround_events := eff.goaround_events + 1 }
      if q.emergencia_registrada = false then
        ({ q with emergencia_registrada := true },
         { eff with emergency_events := eff.emergency_events + 1 })
      else (q, eff)
    else (p, eff)
  let p := ga.1
  let eff := ga.2
  if env.allow_diversion ∧ p.emergencia = false ∧ p.holding_time ≥ env.max_holding_time then
    ({ p with state := .diverted },
     { eff with total_diverted := 1, holding_removed := env.in_holding_list })
  else
    ({ p with pos := env.orbit_pos }, eff)

/-- The `waiting` branch of `Airplane.step` (lines 277-288): landing
resolves the emergency; the ground-turn countdown then runs, enqueueing
the aircraft for departure at zero. -/
def step_waiting (p : Airplane) (eff : StepEffects) : Airplane × StepEffects :=
  let p :=
    if p.emergencia then
      { p with emergencia := false,
               prioridad := if p.prioridad = 2 then 1 else p.prioridad }
    else p
  let p := { p with wait_time := p.wait_time - 1 }
  if p.wait_time ≤ 0 then
    ({ p with state := .queued_departure }, { eff with enqueued_departure := true })
  else (p, eff)

/-- The `departing` branch of `Airplane.step` (lines 293-306). -/
def step_departing (p : Airplane) (env : StepEnv) (eff : StepEffects) :
    Airplane × StepEffects :=
  let p := if p.emergencia then { p with emergencia := false } else p
  let p := if p.prioridad = 2 then { p with prioridad := 1 } else p
  let p := { p with goaround_blink := 0 }
  let p := { p with pos := move_towards env.grid_w env.grid_h p.pos p.exit_target }
  if p.pos = p.exit_target then
    ({ p with state := .gone },
     { eff with total_departures := 1, removal_requested := true })
  else (p, eff)

/-- The `diverted` branch of `Airplane.step` (lines 308-312). -/
def step_diverted (p : Airplane) (env : StepEnv) (eff : StepEffects) :
    Airplane × StepEffects :=
  let p := { p with pos := move_towards env.grid_w env.grid_h p.pos p.exit_target }
  if p.pos = p.exit_target then (p, { eff with removal_requested := true })
  else (p, eff)

/-- `Airplane.step` (`agentes/airplane.py` lines 183-312), a pure
function of the aircraft, the model context and the random draws
(`StepEnv`).  Returns the updated aircraft and its effects on the
model. -/
def Airplane.step (p₀ : Airplane) (env : StepEnv) : Airplane × StepEffects :=
  let act := activar_emergencia (consumo p₀ env)
  let p := act.1
  let eff := act.2
  match p.state with
  | .arriving => step_arriving p env eff
  | .holding => step_holding p env eff
  | .waiting => step_waiting p eff
  | .queued_departure => (p, eff)
  | .departing => step_departing p env eff
  | .diverted => step_diverted p env eff
  | .gone => (p, eff)

/-! ## Control tower (`agentes/controltower.py`) -/

/-- The four criterion weights returned by
`ControlTower._calcular_pesos_adaptativos`. -/
structure Pesos where
  prioridad : ℚ
  combustible : ℚ
  holding : ℚ
  fifo : ℚ
deriving DecidableEq, Repr

/-- `ControlTower._calcular_pesos_adaptativos` (`agentes/controltower.py`
lines 114-170): pick a weight vector from the weather regime, the number
of active emergencies in the holding set, and the congestion ratio
`len(holding_planes) / max(max_ground * 2, 1)`. -/
def calcular_pesos_adaptativos (clima : Clima) (holding_planes : List Airplane)
    (max_ground : Int) : Pesos :=
  let emergencias_activas := (holding_planes.filter (·.emergencia)).length
  let congestion : ℚ := (holding_planes.length : ℚ) / (max (max_ground * 2) 1 : Int)
  if clima = .tormenta ∨ clima = .microburst then
    ⟨45/100, 35/100, 15/100, 5/100⟩
  else if emergencias_activas > 0 then
    ⟨40/100, 35/100, 20/100, 5/100⟩
  else if congestion > 7/10 then
    ⟨25/100, 25/100, 40/100, 10/100⟩
  else
    ⟨30/100, 30/100, 30/100, 10/100⟩

/-- The `fuel_score` closure of the `fuel_priority` branch of
`ControlTower.programar_aterrizaje`: emergencies score 0, everyone else
scores their remaining fuel. -/
def fuel_score (p : Airplane) : ℚ :=
  if p.emergencia then 0 else (p.combustible_restante : ℚ)

/-- The largest `unique_id` in a batch
(`max(plane.unique_id for plane in aviones_en_espera)`; 0 for the empty
list, which the source never passes because of the guard at the top of
`programar_aterrizaje`). -/
def max_id_of (l : List Airplane) : Nat :=
  l.foldr (fun p m => max p.unique_id m) 0

/-- The `calcular_score` closure of the `dynamic` branch of
`ControlTower.programar_aterrizaje` (`agentes/controltower.py` lines
64-100): weighted sum of the four normalised criteria, scaled by the
aircraft-type priority weight, plus the punctuality bonus. -/
def calcular_score (pesos : Pesos) (max_id : Nat) (p : Airplane) : ℚ :=
  let prioridad_norm : ℚ := (p.prioridad : ℚ) / 2
  let combustible_norm : ℚ := max 0 (min 1 (1 - (p.combustible_restante : ℚ) / 120))
  let holding_norm : ℚ := min ((p.holding_time : ℚ) / 30) 1
  let id_norm : ℚ := if max_id > 0 then (p.unique_id : ℚ) / (max_id : ℚ) else 0
  let punctuality_bonus : ℚ :=
    if p.punctuality_status = .delayed then 1/10
    else if p.punctuality_status = .early then -(5/100)
    else 0
  let base_score :=
    prioridad_norm * pesos.prioridad +
    combustible_norm * pesos.combustible +
    holding_norm * pesos.holding +
    id_norm * pesos.fifo
  base_score * p.priority_weight + punctuality_bonus

/-- The model context read by `ControlTower.programar_aterrizaje` and
`ControlTower.gestionar_llegadas`: the control policy, the current
weather, the ground-capacity configuration, the current number of
aircraft on the ground (`planes_on_ground()`), the per-tick release cap,
and the holding set itself.  At the one call site of
`programar_aterrizaje` (inside `gestionar_llegadas`) the argument list
is `model.holding_planes`, the same list `_calcular_pesos_adaptativos`
reads, so the embedding passes a single list. -/
structure TowerState where
  control_policy : Policy
  clima_actual : Clima
  max_ground : Int
  on_ground : Int
  max_release_per_step : Nat
  holding_planes : List Airplane
deriving DecidableEq, Repr

/-- `ControlTower.programar_aterrizaje` (`agentes/controltower.py` lines
24-111): order the waiting aircraft according to the active policy.
Python's `sorted` is a stable sort, embedded as `List.mergeSort` (also
stable); `sorted(..., key, reverse=True)` keeps equal-keyed elements in
input order, which is `mergeSort` with the reversed comparison.
Returns the ordered list together with the `reordenamientos_realizados`
increment of the dynamic branch. -/
def programar_aterrizaje (m : TowerState) (aviones_en_espera : List Airplane) :
    List Airplane × Nat :=
  if aviones_en_espera = [] then ([], 0)
  else
    match m.control_policy with
    | .fixed =>
      (aviones_en_espera.mergeSort (fun a b => a.unique_id ≤ b.unique_id), 0)
    | .fuel_priority =>
      (aviones_en_espera.mergeSort (fun a b => fuel_score a ≤ fuel_score b), 0)
    | .dynamic =>
      let pesos := calcular_pesos_adaptativos m.clima_actual aviones_en_espera m.max_ground
      let max_id := max_id_of aviones_en_espera
      let ordenado := aviones_en_espera.mergeSort
        (fun a b => calcular_score pesos max_id b ≤ calcular_score pesos max_id a)
      (ordenado, if ordenado ≠ aviones_en_espera then 1 else 0)

/-- `ControlTower._marcar_retrasados_por_emergencia`
(`agentes/controltower.py` lines 176-190): if any holding aircraft is an
emergency, bump every non-emergency holding aircraft with `prioridad < 1`
to `prioridad = 1`. -/
def marcar_retrasados (l : List Airplane) : List Airplane :=
  if l = [] then l
  else if l.any (·.emergencia) then
    l.map (fun p =>
      if p.emergencia = false ∧ p.prioridad < 1 then { p with prioridad := 1 } else p)
  else l

/-- The body of the release loop of `ControlTower.gestionar_llegadas`:
a popped aircraft still in state `holding` is transitioned to
`arriving` with `holding_time` reset to 0; anything else is dropped
from the holding set unchanged. -/
def liberar (p : Airplane) : Airplane :=
  if p.state = .holding then { p with state := .arriving, holding_time := 0 } else p

/-- `ControlTower.gestionar_llegadas` (`agentes/controltower.py` lines
192-223).  Returns the tower state with the new holding set, the list
of released aircraft (after their transition), and the
`emergencias_atendidas` increment. -/
def gestionar_llegadas (m : TowerState) : TowerState × List Airplane × Nat :=
  let capacidad_libre := m.max_ground - m.on_ground
  if capacidad_libre ≤ 0 ∨ m.holding_planes = [] then (m, [], 0)
  else
    let hp := marcar_retrasados m.holding_planes
    let hp := (programar_aterrizaje m hp).1
    let n := min capacidad_libre.toNat (min m.max_release_per_step hp.length)
    let released := hp.take n
    ({ m with holding_planes := hp.drop n },
     released.map liberar,
     (released.filter (fun p => p.state = .holding ∧ p.emergencia)).length)

/-- `ControlTower.gestionar_salidas` (`agentes/controltower.py` lines
229-241) acts on the runway pool; see `RunwayPoolState` below. -/
structure Runway where
  busy : Bool
  remaining : Int
  plane : Option Nat
deriving DecidableEq, Repr

/-- The shared departure infrastructure: the runway list and the
departure queue (aircraft identified by `unique_id`). -/
structure RunwayPoolState where
  runways : List Runway
  departure_queue : List Nat
deriving DecidableEq, Repr

/-- One slot of `AirportModel.update_runways` (`model.py` lines
365-373): a busy runway counts one tick of utilisation, decrements
`remaining`, and is freed (occupant cleared) when the countdown reaches
zero.  Note the source does not reset `remaining` on freeing; it is
left at the value reached by the decrement. -/
def update_runway (rw : Runway) : Runway :=
  if rw.busy then
    let r := rw.remaining - 1
    if r ≤ 0 then { busy := false, remaining := r, plane := none }
    else { busy := true, remaining := r, plane := rw.plane }
  else rw

/-- `AirportModel.update_runways` over the whole pool. -/
def update_runways (s : RunwayPoolState) : RunwayPoolState :=
  { s with runways := s.runways.map update_runway }

/-- `ControlTower.gestionar_salidas` (`agentes/controltower.py` lines
229-241): for each runway in order, if it is not busy and the departure
queue is non-empty, pop the queue head, mark the runway busy for
`takeoff_time` ticks and bind the aircraft as occupant (the aircraft's
own transition to `departing` is tracked in the `Airplane` embedding). -/
def gestionar_salidas_aux (takeoff_time : Int) :
    List Runway → List Nat → List Runway × List Nat
  | [], dq => ([], dq)
  | rw :: rest, dq =>
    if rw.busy = false then
      match dq with
      | [] =>
        let r := gestionar_salidas_aux takeoff_time rest []
        (rw :: r.1, r.2)
      | pid :: dq' =>
        let r := gestionar_salidas_aux takeoff_time rest dq'
        ({ busy := true, remaining := takeoff_time, plane := some pid } :: r.1, r.2)
    else
      let r := gestionar_salidas_aux takeoff_time rest dq
      (rw :: r.1, r.2)

/-- `ControlTower.gestionar_salidas` on the pool state. -/
def gestionar_salidas (takeoff_time : Int) (s : RunwayPoolState) : RunwayPoolState :=
  let r := gestionar_salidas_aux takeoff_time s.runways s.departure_queue
  { runways := r.1, departure_queue := r.2 }

/-- The runway half of `AirportModel.aplicar_microburst` (`model.py`
lines 401-403): force every runway busy with an oversized countdown
(the occupant reference is not touched by the source). -/
def microburst_runways (s : RunwayPoolState) : RunwayPoolState :=
  { s with runways := s.runways.map (fun rw => { rw with busy := true, remaining := 999999 }) }

/-- The initial runway pool of `AirportModel.__init__` (`model.py` lines
141-144): two free runways, and an empty departure queue. -/
def initRunwayPool : RunwayPoolState :=
  { runways := [⟨false, 0, none⟩, ⟨false, 0, none⟩], departure_queue := [] }

/-- Reachability of a runway-pool state, for a given `takeoff_time`
configuration: starting from the initial pool, the only operations that
touch the runways or the departure queue in the source are
`update_runways`, `gestionar_salidas`, `aplicar_microburst`, the
enqueueing of an aircraft entering `queued_departure`
(`departure_queue.append`), and the queue removal inside
`AirportModel.remove_plane` (`departure_queue.remove`). -/
inductive RunwayReach (takeoff_time : Int) : RunwayPoolState → Prop
  | init : RunwayReach takeoff_time initRunwayPool
  | update {s} : RunwayReach takeoff_time s → RunwayReach takeoff_time (update_runways s)
  | salidas {s} : RunwayReach takeoff_time s →
      RunwayReach takeoff_time (gestionar_salidas takeoff_time s)
  | micro {s} : RunwayReach takeoff_time s →
      RunwayReach takeoff_time (microburst_runways s)
  | enqueue {s} (pid : Nat) : RunwayReach takeoff_time s →
      RunwayReach takeoff_time { s with departure_queue := s.departure_queue ++ [pid] }
  | dequeue {s} (pid : Nat) : RunwayReach takeoff_time s →
      RunwayReach takeoff_time { s with departure_queue := s.departure_queue.erase pid }

/-! ## Airline cost aggregation (`agentes/airline.py`) -/

/-- The accumulated cost and performance fields of `Airline.__init__`.
Costs are exact rationals (the source adds integer-valued float
constants: 50, 100, 200 per tick, 5000 per diversion). -/
structure AirlineState where
  total_fuel_cost : ℚ
  delay_penalties : ℚ
  diversion_cost : ℚ
  emergency_cost : ℚ
  total_holding_time : Nat
  completed_flights : Nat
  active_emergencies : Nat
  fleet : List Nat
deriving DecidableEq, Repr

/-! ## Membership collections and `AirportModel.remove_plane` -/

/-- The four collections that can reference an aircraft (by
`unique_id`): the engine's canonical `planes` list, the holding set,
the departure queue, and the owning airline's `fleet` list
(`Airline.register_plane` appends to it at spawn). -/
structure Collections where
  planes : List Nat
  holding_planes : List Nat
  departure_queue : List Nat
  fleet : List Nat
deriving DecidableEq, Repr

/-- `AirportModel.remove_plane` (`model.py` lines 342-363), restricted
to its effect on the membership collections.  The source removes the
aircraft from `self.planes`, from `self.holding_planes` and from
`self.departure_queue` (each time guarded by a membership test, which
is `List.erase`'s behaviour); it contains no removal from the owning
airline's `fleet`, and `agentes/airline.py` defines no fleet-removal
operation (`register_plane` only appends; the airline's diversion-rate
and efficiency metrics iterate the fleet counting `diverted` aircraft,
relying on them staying in it). -/
def remove_plane (c : Collections) (pid : Nat) : Collections :=
  { c with planes := c.planes.erase pid,
           holding_planes := c.holding_planes.erase pid,
           departure_queue := c.departure_queue.erase pid }

/-! ## The simulation engine step (`model.py`) -/

/-- `FACTOR_CLIMA` (`model.py` lines 25-32).  `actualizar_clima` reads it
with `.get(clima, 1.0)`; the regime enum is total so the default branch
is unreachable. -/
def FACTOR_CLIMA : Clima → ℚ
  | .normal => 1
  | .lluvia => 14/10
  | .niebla => 16/10
  | .viento_fuerte => 17/10
  | .tormenta => 2
  | .microburst => 999

/-- The model-level state touched by `AirportModel.step` and the
operations it dispatches to.  Aircraft are stored with their full
per-aircraft state; the holding set and the departure queue reference
them by `unique_id`, as in `Collections`. -/
structure MState where
  current_hour : Nat
  current_minute : Nat
  minutes_per_step : Nat
  clima_manual : Option Clima
  usar_probabilidades : Bool
  clima_actual : Clima
  factor_clima : ℚ
  last_clima_change_hour : Nat
  hours_until_next_clima_change : Nat
  allow_diversion : Bool
  arrival_rate : ℚ
  planes : List Airplane
  holding_planes : List Nat
  departure_queue : List Nat
  runways : List Runway
  airlines : List AirlineState
  total_arrivals : Nat
  total_departures : Nat
  total_diverted : Nat
  emergency_events : Nat
  goaround_events : Nat
  total_holding_time_accumulated : Nat
  runway_busy_time : Nat
deriving DecidableEq, Repr

/-- `AirportModel.advance_time` (`model.py` lines 254-260): add
`minutes_per_step`; on reaching 60 the minute counter is reset to 0 and
the hour advances, wrapping at 24. -/
def advance_time (s : MState) : MState :=
  let m := s.current_minute + s.minutes_per_step
  if m ≥ 60 then
    let h := s.current_hour + 1
    { s with current_minute := 0, current_hour := if h ≥ 24 then 0 else h }
  else
    { s with current_minute := m }

/-- The random draws of `AirportModel.actualizar_clima`:
`random.choices(CLIMAS, weights=...)` and `random.randint(4, 8)`. -/
structure ClimaDraws where
  nuevo_clima : Clima
  nuevo_intervalo : Nat
deriving DecidableEq, Repr

/-- `AirportModel.actualizar_clima` (`model.py` lines 375-393): a manual
override regime always wins; otherwise, in probabilistic mode, the
regime is resampled once the elapsed hours (mod 24) since the last
change reach the randomized threshold.  In every case `factor_clima` is
refreshed from the table. -/
def actualizar_clima (d : ClimaDraws) (s : MState) : MState :=
  let s :=
    match s.clima_manual with
    | some c => { s with clima_actual := c }
    | none =>
      if s.usar_probabilidades then
        let hours_since :=
          if s.current_hour ≥ s.last_clima_change_hour then
            s.current_hour - s.last_clima_change_hour
          else
            s.current_hour + 24 - s.last_clima_change_hour
        if hours_since ≥ s.hours_until_next_clima_change then
          { s with clima_actual := d.nuevo_clima,
                   last_clima_change_hour := s.current_hour,
                   hours_until_next_clima_change := d.nuevo_intervalo }
        else s
      else s
  { s with factor_clima := FACTOR_CLIMA s.clima_actual }

/-- The aircraft half of `AirportModel.aplicar_microburst` (`model.py`
lines 396-399): every `arriving` or `holding` aircraft is turned
`diverted`, each incrementing `total_diverted` (the `allow_diversion`
flag is not consulted). -/
def microburst_divert (p : Airplane) : Airplane :=
  if p.state = .arriving ∨ p.state = .holding then { p with state := .diverted } else p

/-- `AirportModel.aplicar_microburst` (`model.py` lines 395-403):
divert every airborne aircraft and force every runway busy with
`remaining = 999999`.  The holding set, the departure queue, the
airlines and every counter other than `total_diverted` are untouched. -/
def aplicar_microburst (s : MState) : MState :=
  { s with
    planes := s.planes.map microburst_divert,
    total_diverted := s.total_diverted +
      (s.planes.filter (fun p => p.state = .arriving ∨ p.state = .holding)).length,
    runways := s.runways.map (fun rw => { rw with busy := true, remaining := 999999 }) }

/-- `AirportModel.step` (`model.py` lines 294-328): advance the clock,
update the weather, and — if the resulting regime is `microburst` —
apply the microburst and return immediately (`datacollector.collect` is
a pure observation).  The whole remainder of the tick (arrival spawn,
`update_runways`, `schedule.step` driving the tower, the airlines and
every aircraft, and the holding-time accumulation) is abstracted as the
function `rest`; the microburst theorem quantifies over every `rest`,
which is exactly the statement that none of that code runs on a
microburst tick. -/
def AirportModel.step (d : ClimaDraws) (rest : MState → MState) (s : MState) : MState :=
  let s := advance_time s
  let s := actualizar_clima d s
  if s.clima_actual = .microburst then
    aplicar_microburst s
  else
    rest s

/-! ## Traces -/

/-- Iterate `Airplane.step` over a list of per-tick environments (one
aircraft's lifetime as seen by the engine), collecting the total number
of `emergency_events` increments the aircraft reports to the model. -/
def stepTrace (p : Airplane) : List StepEnv → Airplane × Nat
  | [] => (p, 0)
  | env :: envs =>
    let r := Airplane.step p env
    let rest := stepTrace r.1 envs
    (rest.1, r.2.emergency_events + rest.2)

/-! ## Sample concrete values (used by witnesses and counterexamples) -/

/-- A fixed oracle environment: 5 minutes per tick, ground not
saturated, no diversion, no go-around draw, the 20×20 grid of
`AirportModel.__init__`. -/
def envBase : StepEnv :=
  { minutes_per_step := 5, ground_full := false, in_holding_list := false,
    allow_diversion := false, max_holding_time := 25, goaround_draw := false,
    goaround_loss := 20, orbit_pos := (10, 10), grid_w := 20, grid_h := 20 }

/-- A sample aircraft in its spawn configuration (an `A320`-class
aircraft, `priority_weight = 1.0`, spawned with 60 fuel on the 20×20
grid). -/
def planeBase : Airplane :=
  { unique_id := 1, state := .arriving, combustible_restante := 60,
    prioridad := 0, emergencia := false, emergencia_registrada := false,
    holding_time := 0, goaround_blink := 0, wait_time := 4,
    scheduled_arrival_time := 60, actual_arrival_time := 0,
    punctuality_status := .on_time, priority_weight := 1,
    pos := (0, 0), center := (10, 10), exit_target := (19, 19) }

/-- A sample emergency aircraft in the holding pattern. -/
def planeHoldingEm : Airplane :=
  { planeBase with state := .holding, emergencia := true, prioridad := 2 }

/-- A sample non-emergency aircraft in holding whose fuel will cross the
threshold 10 on this tick (11 before the one-unit consumption). -/
def planeHoldLowFuel : Airplane :=
  { planeBase with state := .holding, combustible_restante := 11 }

/-- An aircraft on the ground (`waiting`) with low fuel whose emergency
was already resolved by landing: this configuration is reached by a
go-around (fuel drop to 5, emergency flagged and registered) followed by
release, landing, and one `waiting` tick (which clears the flag and
downgrades priority 2 to 1). -/
def planeWaitingLowFuel : Airplane :=
  { planeBase with
    state := .waiting
    combustible_restante := 5
    emergencia := false
    emergencia_registrada := true
    prioridad := 1
    wait_time := 3 }

/-- A non-emergency aircraft with zero remaining fuel (`fuel_score` 0). -/
def planeNoEmZeroFuel : Airplane :=
  { planeBase with state := .holding, combustible_restante := 0, unique_id := 1 }

/-- An emergency aircraft with plenty of fuel (`fuel_score` 0). -/
def planeEmFullFuel : Airplane :=
  { planeBase with
    state := .holding
    combustible_restante := 50
    emergencia := true
    prioridad := 2
    unique_id := 2 }

/-- A non-emergency aircraft with positive fuel. -/
def planeNoEmSomeFuel : Airplane :=
  { planeBase with state := .holding, combustible_restante := 30, unique_id := 3 }

/-- A sample tower state: `Equilibrio` scenario configuration
(`max_ground = 6`, `max_release_per_step = 3`), two aircraft holding. -/
def towerBase : TowerState :=
  { control_policy := .fuel_priority, clima_actual := .normal, max_ground := 6,
    on_ground := 4, max_release_per_step := 3,
    holding_planes := [planeEmFullFuel, planeNoEmSomeFuel] }

/-- A sample model state at construction time (`Equilibrio` scenario,
manual `microburst` override), with one arriving aircraft. -/
def mstateBase : MState :=
  { current_hour := 6, current_minute := 0, minutes_per_step := 5,
    clima_manual := some .microburst, usar_probabilidades := true,
    clima_actual := .normal, factor_clima := 1, last_clima_change_hour := 0,
    hours_until_next_clima_change := 4, allow_diversion := false,
    arrival_rate := 1/5, planes := [planeBase], holding_planes := [],
    departure_queue := [], runways := [⟨false, 0, none⟩, ⟨false, 0, none⟩],
    airlines := [⟨0, 0, 0, 0, 0, 0, 0, [1]⟩],
    total_arrivals := 0, total_departures := 0, total_diverted := 0,
    emergency_events := 0, goaround_events := 0,
    total_holding_time_accumulated := 0, runway_busy_time := 0 }

/-! ## Helper lemmas on the step phases -/

theorem consumo_state (p : Airplane) (env : StepEnv) : (consumo p env).state = p.state := by
  simp only [consumo]
  split_ifs <;> rfl

theorem consumo_emergencia (p : Airplane) (env : StepEnv) :
    (consumo p env).emergencia = p.emergencia := by
  simp only [consumo]
  split_ifs <;> rfl

theorem consumo_registrada (p : Airplane) (env : StepEnv) :
    (consumo p env).emergencia_registrada = p.emergencia_registrada := by
  simp only [consumo]
  split_ifs <;> rfl

theorem consumo_prioridad (p : Airplane) (env : StepEnv) :
    (consumo p env).prioridad = p.prioridad := by
  simp only [consumo]
  split_ifs <;> rfl

theorem consumo_punctuality (p : Airplane) (env : StepEnv) :
    (consumo p env).punctuality_status = p.punctuality_status := by
  simp only [consumo]
  split_ifs <;> rfl

theorem consumo_fuel_airborne (p : Airplane) (env : StepEnv)
    (h : p.state = .arriving ∨ p.state = .holding) :
    (consumo p env).combustible_restante = max 0 (p.combustible_restante - 1) := by
  simp only [consumo]
  split_ifs <;> simp_all

theorem consumo_fuel_ground (p : Airplane) (env : StepEnv)
    (h : ¬(p.state = .arriving ∨ p.state = .holding)) :
    (consumo p env).combustible_restante = p.combustible_restante := by
  simp only [consumo]
  split_ifs <;> simp_all

theorem activar_state (p : Airplane) : (activar_emergencia p).1.state = p.state := by
  simp only [activar_emergencia]
  split_ifs <;> rfl

theorem activar_fuel (p : Airplane) :
    (activar_emergencia p).1.combustible_restante = p.combustible_restante := by
  simp only [activar_emergencia]
  split_ifs <;> rfl

theorem activar_punctuality (p : Airplane) :
    (activar_emergencia p).1.punctuality_status = p.punctuality_status := by
  simp only [activar_emergencia]
  split_ifs <;> rfl

theorem activar_of_emergencia (p : Airplane) (h : p.emergencia = true) :
    activar_emergencia p = (p, noEffects) := by
  simp only [activar_emergencia]
  simp [h]

theorem activar_emergencia_mono (p : Airplane) (h : p.emergencia = true) :
    (activar_emergencia p).1.emergencia = true := by
  rw [activar_of_emergencia p h]
  exact h

theorem activar_sets (p : Airplane) (h : p.emergencia = false)
    (hf : p.combustible_restante ≤ 10) :
    (activar_emergencia p).1.emergencia = true ∧
      (activar_emergencia p).1.prioridad = 2 ∧
      (activar_emergencia p).1.emergencia_registrada = true := by
  simp only [activar_emergencia]
  simp only [h, hf]
  split_ifs with hr <;> simp_all

theorem activar_registrada_mono (p : Airplane) (h : p.emergencia_registrada = true) :
    (activar_emergencia p).1.emergencia_registrada = true := by
  simp only [activar_emergencia]
  split_ifs <;> simp_all

theorem activar_events (p : Airplane) :
    (activar_emergencia p).2.emergency_events =
      if (activar_emergencia p).1.emergencia_registrada = true ∧
          p.emergencia_registrada = false then 1 else 0 := by
  simp only [activar_emergencia]
  split_ifs <;> simp_all [noEffects]

theorem step_arriving_fuel (p : Airplane) (env : StepEnv) (eff : StepEffects) :
    (step_arriving p env eff).1.combustible_restante = p.combustible_restante := by
  simp only [step_arriving]
  split_ifs <;> rfl

theorem step_arriving_emergencia (p : Airplane) (env : StepEnv) (eff : StepEffects) :
    (step_arriving p env eff).1.emergencia = p.emergencia := by
  simp only [step_arriving]
  split_ifs <;> rfl

theorem step_arriving_prioridad (p : Airplane) (env : StepEnv) (eff : StepEffects) :
    (step_arriving p env eff).1.prioridad = p.prioridad := by
  simp only [step_arriving]
  split_ifs <;> rfl

theorem step_arriving_registrada (p : Airplane) (env : StepEnv) (eff : StepEffects) :
    (step_arriving p env eff).1.emergencia_registrada = p.emergencia_registrada := by
  simp only [step_arriving]
  split_ifs <;> rfl

theorem step_arriving_punctuality (p : Airplane) (env : StepEnv) (eff : StepEffects) :
    (step_arriving p env eff).1.punctuality_status = p.punctuality_status := by
  simp only [step_arriving]
  split_ifs <;> rfl

theorem step_arriving_events (p : Airplane) (env : StepEnv) (eff : StepEffects) :
    (step_arriving p env eff).2.emergency_events = eff.emergency_events := by
  simp only [step_arriving]
  split_ifs <;> rfl

theorem step_holding_fuel (p : Airplane) (env : StepEnv) (eff : StepEffects) :
    (step_holding p env eff).1.combustible_restante = p.combustible_restante ∨
      (step_holding p env eff).1.combustible_restante =
        max 0 (p.combustible_restante - env.goaround_loss) := by
  simp only [step_holding]
  split_ifs <;> simp_all

theorem step_holding_emergencia_mono (p : Airplane) (env : StepEnv) (eff : StepEffects)
    (h : p.emergencia = true) :
    (step_holding p env eff).1.emergencia = true := by
  simp only [step_holding]
  split_ifs <;> simp_all

theorem step_holding_emergencia_clear (p : Airplane) (env : StepEnv) (eff : StepEffects)
    (h : (step_holding p env eff).1.emergencia = false) :
    p.emergencia = false := by
  by_contra hc
  rw [step_holding_emergencia_mono p env eff (by simpa using hc)] at h
  exact absurd h (by simp)

theorem step_holding_prioridad_of_em (p : Airplane) (env : StepEnv) (eff : StepEffects)
    (h : p.emergencia = true) :
    (step_holding p env eff).1.prioridad = p.prioridad := by
  simp only [step_holding]
  split_ifs <;> simp_all

theorem step_holding_registrada (p : Airplane) (env : StepEnv) (eff : StepEffects) :
    (step_holding p env eff).1.emergencia_registrada =
      (p.emergencia_registrada || (!p.emergencia && env.goaround_draw)) := by
  simp only [step_holding]
  split_ifs <;> simp_all

theorem step_holding_punctuality (p : Airplane) (env : StepEnv) (eff : StepEffects) :
    (step_holding p env eff).1.punctuality_status = p.punctuality_status := by
  simp only [step_holding]
  split_ifs <;> rfl

theorem step_holding_events (p : Airplane) (env : StepEnv) (eff : StepEffects) :
    (step_holding p env eff).2.emergency_events = eff.emergency_events +
      (if p.emergencia = false ∧ env.goaround_draw = true ∧
          p.emergencia_registrada = false then 1 else 0) := by
  simp only [step_holding]
  split_ifs <;> simp_all

theorem step_waiting_fuel (p : Airplane) (eff : StepEffects) :
    (step_waiting p eff).1.combustible_restante = p.combustible_restante := by
  simp only [step_waiting]
  split_ifs <;> rfl

theorem step_waiting_emergencia (p : Airplane) (eff : StepEffects) :
    (step_waiting p eff).1.emergencia = false := by
  simp only [step_waiting]
  split_ifs <;> simp_all

theorem step_waiting_registrada (p : Airplane) (eff : StepEffects) :
    (step_waiting p eff).1.emergencia_registrada = p.emergencia_registrada := by
  simp only [step_waiting]
  split_ifs <;> rfl

theorem step_waiting_punctuality (p : Airplane) (eff : StepEffects) :
    (step_waiting p eff).1.punctuality_status = p.punctuality_status := by
  simp only [step_waiting]
  split_ifs <;> rfl

theorem step_waiting_events (p : Airplane) (eff : StepEffects) :
    (step_waiting p eff).2.emergency_events = eff.emergency_events := by
  simp only [step_waiting]
  split_ifs <;> rfl

theorem step_waiting_prioridad (p : Airplane) (eff : StepEffects)
    (h : p.emergencia = true) (h2 : p.prioridad = 2) :
    (step_waiting p eff).1.prioridad = 1 := by
  simp only [step_waiting]
  split_ifs <;> simp_all

theorem step_departing_fuel (p : Airplane) (env : StepEnv) (eff : StepEffects) :
    (step_departing p env eff).1.combustible_restante = p.combustible_restante := by
  simp only [step_departing]
  split_ifs <;> rfl

theorem step_departing_emergencia (p : Airplane) (env : StepEnv) (eff : StepEffects) :
    (step_departing p env eff).1.emergencia = false := by
  simp only [step_departing]
  split_ifs <;> simp_all

theorem step_departing_registrada (p : Airplane) (env : StepEnv) (eff : StepEffects) :
    (step_departing p env eff).1.emergencia_registrada = p.emergencia_registrada := by
  simp only [step_departing]
  split_ifs <;> rfl

theorem step_departing_punctuality (p : Airplane) (env : StepEnv) (eff : StepEffects) :
    (step_departing p env eff).1.punctuality_status = p.punctuality_status := by
  simp only [step_departing]
  split_ifs <;> rfl

theorem step_departing_events (p : Airplane) (env : StepEnv) (eff : StepEffects) :
    (step_departing p env eff).2.emergency_events = eff.emergency_events := by
  simp only [step_departing]
  split_ifs <;> rfl

theorem step_diverted_fuel (p : Airplane) (env : StepEnv) (eff : StepEffects) :
    (step_diverted p env eff).1.combustible_restante = p.combustible_restante := by
  simp only [step_diverted]
  split_ifs <;> rfl

theorem step_diverted_emergencia (p : Airplane) (env : StepEnv) (eff : StepEffects) :
    (step_diverted p env eff).1.emergencia = p.emergencia := by
  simp only [step_diverted]
  split_ifs <;> rfl

theorem step_diverted_registrada (p : Airplane) (env : StepEnv) (eff : StepEffects) :
    (step_diverted p env eff).1.emergencia_registrada = p.emergencia_registrada := by
  simp only [step_diverted]
  split_ifs <;> rfl

theorem step_diverted_punctuality (p : Airplane) (env : StepEnv) (eff : StepEffects) :
    (step_diverted p env eff).1.punctuality_status = p.punctuality_status := by
  simp only [step_diverted]
  split_ifs <;> rfl

theorem step_diverted_events (p : Airplane) (env : StepEnv) (eff : StepEffects) :
    (step_diverted p env eff).2.emergency_events = eff.emergency_events := by
  simp only [step_diverted]
  split_ifs <;> rfl

theorem step_diverted_holding_removed (p : Airplane) (env : StepEnv) (eff : StepEffects) :
    (step_diverted p env eff).2.holding_removed = eff.holding_removed := by
  simp only [step_diverted]
  split_ifs <;> rfl

theorem step_diverted_removal (p : Airplane) (env : StepEnv) (eff : StepEffects)
    (h : eff.removal_requested = false)
    (hr : (step_diverted p env eff).2.removal_requested = true) :
    move_towards env.grid_w env.grid_h p.pos p.exit_target = p.exit_target := by
  simp only [step_diverted] at hr
  split_ifs at hr with hp
  · exact hp
  · rw [h] at hr
    exact absurd hr (by simp)

/-! Dispatch lemmas: `Airplane.step` reduced to the branch selected by
the (unchanged) aircraft state. -/

theorem step_eq_arriving (p₀ : Airplane) (env : StepEnv) (h : p₀.state = .arriving) :
    Airplane.step p₀ env =
      step_arriving (activar_emergencia (consumo p₀ env)).1 env
        (activar_emergencia (consumo p₀ env)).2 := by
  simp only [Airplane.step, activar_state, consumo_state, h]

theorem step_eq_holding (p₀ : Airplane) (env : StepEnv) (h : p₀.state = .holding) :
    Airplane.step p₀ env =
      step_holding (activar_emergencia (consumo p₀ env)).1 env
        (activar_emergencia (consumo p₀ env)).2 := by
  simp only [Airplane.step, activar_state, consumo_state, h]

theorem step_eq_waiting (p₀ : Airplane) (env : StepEnv) (h : p₀.state = .waiting) :
    Airplane.step p₀ env =
      step_waiting (activar_emergencia (consumo p₀ env)).1
        (activar_emergencia (consumo p₀ env)).2 := by
  simp only [Airplane.step, activar_state, consumo_state, h]

theorem step_eq_queued (p₀ : Airplane) (env : StepEnv) (h : p₀.state = .queued_departure) :
    Airplane.step p₀ env = activar_emergencia (consumo p₀ env) := by
  simp only [Airplane.step, activar_state, consumo_state, h]

theorem step_eq_departing (p₀ : Airplane) (env : StepEnv) (h : p₀.state = .departing) :
    Airplane.step p₀ env =
      step_departing (activar_emergencia (consumo p₀ env)).1 env
        (activar_emergencia (consumo p₀ env)).2 := by
  simp only [Airplane.step, activar_state, consumo_state, h]

theorem step_eq_diverted (p₀ : Airplane) (env : StepEnv) (h : p₀.state = .diverted) :
    Airplane.step p₀ env =
      step_diverted (activar_emergencia (consumo p₀ env)).1 env
        (activar_emergencia (consumo p₀ env)).2 := by
  simp only [Airplane.step, activar_state, consumo_state, h]

theorem step_eq_gone (p₀ : Airplane) (env : StepEnv) (h : p₀.state = .gone) :
    Airplane.step p₀ env = activar_emergencia (consumo p₀ env) := by
  simp only [Airplane.step, activar_state, consumo_state, h]

theorem step_fuel_arriving (p : Airplane) (env : StepEnv) (h : p.state = .arriving) :
    (Airplane.step p env).1.combustible_restante = max 0 (p.combustible_restante - 1) := by
  rw [step_eq_arriving p env h, step_arriving_fuel, activar_fuel,
    consumo_fuel_airborne p env (Or.inl h)]

theorem step_fuel_holding (p : Airplane) (env : StepEnv) (h : p.state = .holding) :
    (Airplane.step p env).1.combustible_restante = max 0 (p.combustible_restante - 1) ∨
      (Airplane.step p env).1.combustible_restante =
        max 0 (max 0 (p.combustible_restante - 1) - env.goaround_loss) := by
  rw [step_eq_holding p env h]
  rcases step_holding_fuel (activar_emergencia (consumo p env)).1 env
      (activar_emergencia (consumo p env)).2 with h1 | h1
  · left
    rw [h1, activar_fuel, consumo_fuel_airborne p env (Or.inr h)]
  · right
    rw [h1, activar_fuel, consumo_fuel_airborne p env (Or.inr h)]

theorem step_fuel_ground (p : Airplane) (env : StepEnv)
    (h : ¬(p.state = .arriving ∨ p.state = .holding)) :
    (Airplane.step p env).1.combustible_restante = p.combustible_restante := by
  cases hs : p.state
  case arriving => exact absurd (Or.inl hs) h
  case holding => exact absurd (Or.inr hs) h
  case waiting =>
    rw [step_eq_waiting p env hs, step_waiting_fuel, activar_fuel,
      consumo_fuel_ground p env (by simp [hs])]
  case queued_departure =>
    rw [step_eq_queued p env hs, activar_fuel, consumo_fuel_ground p env (by simp [hs])]
  case departing =>
    rw [step_eq_departing p env hs, step_departing_fuel, activar_fuel,
      consumo_fuel_ground p env (by simp [hs])]
  case diverted =>
    rw [step_eq_diverted p env hs, step_diverted_fuel, activar_fuel,
      consumo_fuel_ground p env (by simp [hs])]
  case gone =>
    rw [step_eq_gone p env hs, activar_fuel, consumo_fuel_ground p env (by simp [hs])]

/-! ## C2 — fuel invariant -/

/-- C2.  For every aircraft and every tick, `fuelRemaining` stays ≥ 0,
and it changes only while the aircraft is airborne
(`state ∈ {arriving, holding}`), where it decreases: by exactly the one
unit of normal consumption in `arriving` (floored at 0), strictly
whenever fuel is positive, and in `holding` additionally by the
go-around loss; in all other states fuel is unchanged. -/
theorem fuel_invariant_c2 (p : Airplane) (env : StepEnv)
    (h : 0 ≤ p.combustible_restante) :
    0 ≤ (Airplane.step p env).1.combustible_restante
    ∧ (¬(p.state = .arriving ∨ p.state = .holding) →
        (Airplane.step p env).1.combustible_restante = p.combustible_restante)
    ∧ ((p.state = .arriving ∨ p.state = .holding) →
        (Airplane.step p env).1.combustible_restante ≤ p.combustible_restante)
    ∧ ((p.state = .arriving ∨ p.state = .holding) → 0 < p.combustible_restante →
        (Airplane.step p env).1.combustible_restante < p.combustible_restante)
    ∧ (p.state = .arriving →
        (Airplane.step p env).1.combustible_restante = max 0 (p.combustible_restante - 1)) := by
  by_cases hair : p.state = .arriving ∨ p.state = .holding
  · have key : (Airplane.step p env).1.combustible_restante = max 0 (p.combustible_restante - 1) ∨
        (Airplane.step p env).1.combustible_restante =
          max 0 (max 0 (p.combustible_restante - 1) - env.goaround_loss) := by
      rcases hair with hs | hs
      · exact Or.inl (step_fuel_arriving p env hs)
      · exact step_fuel_holding p env hs
    refine ⟨?_, fun hc => absurd hair hc, fun _ => ?_, fun _ hpos => ?_, fun hs => ?_⟩
    · rcases key with k | k <;> rw [k] <;> omega
    · rcases key with k | k <;> rw [k] <;> omega
    · rcases key with k | k <;> rw [k] <;> omega
    · exact step_fuel_arriving p env hs
  · have key := step_fuel_ground p env hair
    refine ⟨by rw [key]; exact h, fun _ => key, fun hc => absurd hc hair,
      fun hc _ => absurd hc hair, fun hs => absurd (Or.inl hs) hair⟩

/-- Witness for C2 at a concrete aircraft. -/
theorem fuel_invariant_c2_witness :
    0 ≤ (Airplane.step planeBase envBase).1.combustible_restante
    ∧ (¬(planeBase.state = .arriving ∨ planeBase.state = .holding) →
        (Airplane.step planeBase envBase).1.combustible_restante =
          planeBase.combustible_restante)
    ∧ ((planeBase.state = .arriving ∨ planeBase.state = .holding) →
        (Airplane.step planeBase envBase).1.combustible_restante ≤
          planeBase.combustible_restante)
    ∧ ((planeBase.state = .arriving ∨ planeBase.state = .holding) →
        0 < planeBase.combustible_restante →
        (Airplane.step planeBase envBase).1.combustible_restante <
          planeBase.combustible_restante)
    ∧ (planeBase.state = .arriving →
        (Airplane.step planeBase envBase).1.combustible_restante =
          max 0 (planeBase.combustible_restante - 1)) :=
  fuel_invariant_c2 planeBase envBase (by decide)

theorem act_em_of_em (p : Airplane) (env : StepEnv) (h : p.emergencia = true) :
    (activar_emergencia (consumo p env)).1.emergencia = true :=
  activar_emergencia_mono _ (by rw [consumo_emergencia]; exact h)

/-! ## C5 — the emergency flag is monotone while airborne -/

/-- C5.  Once `isEmergency` is true it is never cleared by a step taken
in `arriving` or `holding`; and whenever a step clears the flag, the
aircraft was in `waiting` or `departing`. -/
theorem emergency_monotone_c5 (p : Airplane) (env : StepEnv)
    (h : p.emergencia = true) :
    ((p.state = .arriving ∨ p.state = .holding) →
      (Airplane.step p env).1.emergencia = true)
    ∧ ((Airplane.step p env).1.emergencia = false →
      p.state = .waiting ∨ p.state = .departing) := by
  have hact := act_em_of_em p env h
  constructor
  · rintro (hs | hs)
    · rw [step_eq_arriving p env hs, step_arriving_emergencia]
      exact hact
    · rw [step_eq_holding p env hs]
      exact step_holding_emergencia_mono _ env _ hact
  · intro hclear
    cases hs : p.state
    case arriving =>
      rw [step_eq_arriving p env hs, step_arriving_emergencia, hact] at hclear
      exact absurd hclear (by simp)
    case holding =>
      rw [step_eq_holding p env hs,
        step_holding_emergencia_mono _ env _ hact] at hclear
      exact absurd hclear (by simp)
    case waiting => exact Or.inl rfl
    case departing => exact Or.inr rfl
    case queued_departure =>
      rw [step_eq_queued p env hs, hact] at hclear
      exact absurd hclear (by simp)
    case diverted =>
      rw [step_eq_diverted p env hs, step_diverted_emergencia, hact] at hclear
      exact absurd hclear (by simp)
    case gone =>
      rw [step_eq_gone p env hs, hact] at hclear
      exact absurd hclear (by simp)

/-- Witness for C5 at a concrete emergency aircraft in holding. -/
theorem emergency_monotone_c5_witness :
    ((planeHoldingEm.state = .arriving ∨ planeHoldingEm.state = .holding) →
      (Airplane.step planeHoldingEm envBase).1.emergencia = true)
    ∧ ((Airplane.step planeHoldingEm envBase).1.emergencia = false →
      planeHoldingEm.state = .waiting ∨ planeHoldingEm.state = .departing) :=
  emergency_monotone_c5 planeHoldingEm envBase (by decide)

theorem activar_not_trigger (p : Airplane)
    (h : ¬(p.emergencia = false ∧ p.combustible_restante ≤ 10)) :
    activar_emergencia p = (p, noEffects) := by
  simp only [activar_emergencia]
  rw [if_neg h]

theorem activar_registrada_flip (p : Airplane) :
    (activar_emergencia p).2.emergency_events =
      if (activar_emergencia p).1.emergencia_registrada = true ∧
          p.emergencia_registrada = false then 1 else 0 :=
  activar_events p

theorem step_registrada_mono (p : Airplane) (env : StepEnv)
    (h : p.emergencia_registrada = true) :
    (Airplane.step p env).1.emergencia_registrada = true := by
  have hact : (activar_emergencia (consumo p env)).1.emergencia_registrada = true :=
    activar_registrada_mono _ (by rw [consumo_registrada]; exact h)
  cases hs : p.state
  case arriving => rw [step_eq_arriving p env hs, step_arriving_registrada]; exact hact
  case holding =>
    rw [step_eq_holding p env hs, step_holding_registrada, hact]
    rfl
  case waiting => rw [step_eq_waiting p env hs, step_waiting_registrada]; exact hact
  case queued_departure => rw [step_eq_queued p env hs]; exact hact
  case departing => rw [step_eq_departing p env hs, step_departing_registrada]; exact hact
  case diverted => rw [step_eq_diverted p env hs, step_diverted_registrada]; exact hact
  case gone => rw [step_eq_gone p env hs]; exact hact

theorem step_events_flip (p : Airplane) (env : StepEnv) :
    (Airplane.step p env).2.emergency_events =
      if (Airplane.step p env).1.emergencia_registrada = true ∧
          p.emergencia_registrada = false then 1 else 0 := by
  have hact := activar_registrada_flip (consumo p env)
  rw [consumo_registrada] at hact
  have hmono : p.emergencia_registrada = true →
      (activar_emergencia (consumo p env)).1.emergencia_registrada = true :=
    fun h => activar_registrada_mono _ (by rw [consumo_registrada]; exact h)
  cases hs : p.state
  case arriving =>
    rw [step_eq_arriving p env hs, step_arriving_events, step_arriving_registrada]
    exact hact
  case holding =>
    rw [step_eq_holding p env hs, step_holding_events, step_holding_registrada, hact]
    cases hr : p.emergencia_registrada <;>
      cases ha : (activar_emergencia (consumo p env)).1.emergencia_registrada <;>
      cases he : (activar_emergencia (consumo p env)).1.emergencia <;>
      cases hd : env.goaround_draw <;>
      simp_all
  case waiting =>
    rw [step_eq_waiting p env hs, step_waiting_events, step_waiting_registrada]
    exact hact
  case queued_departure =>
    rw [step_eq_queued p env hs]
    exact hact
  case departing =>
    rw [step_eq_departing p env hs, step_departing_events, step_departing_registrada]
    exact hact
  case diverted =>
    rw [step_eq_diverted p env hs, step_diverted_events, step_diverted_registrada]
    exact hact
  case gone =>
    rw [step_eq_gone p env hs]
    exact hact

theorem step_flip_indicator (p : Airplane) (env : StepEnv) :
    (Airplane.step p env).2.emergency_events +
        (if p.emergencia_registrada = true then 1 else 0) =
      (if (Airplane.step p env).1.emergencia_registrada = true then 1 else 0) := by
  rw [step_events_flip]
  cases hr : p.emergencia_registrada
  · cases hq : (Airplane.step p env).1.emergencia_registrada <;> simp [hq]
  · rw [step_registrada_mono p env hr]
    simp

theorem stepTrace_events_eq (p : Airplane) (envs : List StepEnv) :
    (stepTrace p envs).2 + (if p.emergencia_registrada = true then 1 else 0) =
      (if (stepTrace p envs).1.emergencia_registrada = true then 1 else 0) := by
  induction envs generalizing p with
  | nil => simp [stepTrace]
  | cons e es ih =>
    simp only [stepTrace]
    have h1 := step_flip_indicator p e
    have h2 := ih (Airplane.step p e).1
    omega

theorem step_activation_airborne (p : Airplane) (env : StepEnv)
    (hem : p.emergencia = false)
    (hf : max 0 (p.combustible_restante - 1) ≤ 10)
    (hair : p.state = .arriving ∨ p.state = .holding) :
    (Airplane.step p env).1.emergencia = true ∧
      (Airplane.step p env).1.prioridad = 2 ∧
      (Airplane.step p env).1.emergencia_registrada = true := by
  have hcf : (consumo p env).combustible_restante ≤ 10 := by
    rw [consumo_fuel_airborne p env hair]; exact hf
  have hce : (consumo p env).emergencia = false := by
    rw [consumo_emergencia]; exact hem
  obtain ⟨he, hp, hr⟩ := activar_sets (consumo p env) hce hcf
  rcases hair with hs | hs
  · rw [step_eq_arriving p env hs, step_arriving_emergencia, step_arriving_prioridad,
      step_arriving_registrada]
    exact ⟨he, hp, hr⟩
  · rw [step_eq_holding p env hs]
    refine ⟨step_holding_emergencia_mono _ env _ he, ?_, ?_⟩
    · rw [step_holding_prioridad_of_em _ env _ he]
      exact hp
    · rw [step_holding_registrada, hr]
      rfl

/-! ## C4 — low-fuel emergency activation and the one-time counter
(amended: the same-tick activation is guaranteed while airborne; in
`waiting` the landing resolution of the `waiting` branch clears the
flag again within the same tick, see `emergency_once_c4_counterexample`). -/

/-- C4 (amended).  (a) On a tick where the emergency flag is unset and
fuel (after the tick's one-unit consumption) is ≤ 10, an airborne
aircraft ends the tick with `isEmergency = true` and `priority = 2`.
(b) Over any lifetime trace the `emergency_events` counter increments
at most once.  (c) If the aircraft is unregistered and the low-fuel
condition triggers while airborne, the whole remaining lifetime
contributes exactly one increment.  (d) The same holds when the first
emergency arises from a go-around draw in holding. -/
theorem emergency_once_c4 (p : Airplane) (env : StepEnv) (envs : List StepEnv) :
    ((p.emergencia = false → max 0 (p.combustible_restante - 1) ≤ 10 →
      (p.state = .arriving ∨ p.state = .holding) →
      (Airplane.step p env).1.emergencia = true ∧
        (Airplane.step p env).1.prioridad = 2))
    ∧ (stepTrace p envs).2 ≤ 1
    ∧ (p.emergencia_registrada = false → p.emergencia = false →
        max 0 (p.combustible_restante - 1) ≤ 10 →
        (p.state = .arriving ∨ p.state = .holding) →
        (stepTrace p (env :: envs)).2 = 1)
    ∧ (p.emergencia_registrada = false → p.emergencia = false →
        p.state = .holding → env.goaround_draw = true →
        (stepTrace p (env :: envs)).2 = 1) := by
  have key : ∀ q : Airplane, q.emergencia_registrada = true →
      ∀ es : List StepEnv, (stepTrace q es).2 = 0 := by
    intro q hq es
    have h := stepTrace_events_eq q es
    rw [hq] at h
    simp only [if_true] at h
    split_ifs at h <;> omega
  have once : ∀ (q : Airplane) (e : StepEnv) (es : List StepEnv),
      q.emergencia_registrada = false →
      (Airplane.step q e).1.emergencia_registrada = true →
      (stepTrace q (e :: es)).2 = 1 := by
    intro q e es hq hstep
    simp only [stepTrace]
    rw [step_events_flip, hstep, hq, key (Airplane.step q e).1 hstep es]
    simp
  refine ⟨?_, ?_, ?_, ?_⟩
  · intro hem hf hair
    exact ⟨(step_activation_airborne p env hem hf hair).1,
      (step_activation_airborne p env hem hf hair).2.1⟩
  · have h := stepTrace_events_eq p envs
    split_ifs at h <;> omega
  · intro hreg hem hf hair
    exact once p env envs hreg (step_activation_airborne p env hem hf hair).2.2
  · intro hreg hem hs hdraw
    refine once p env envs hreg ?_
    rw [step_eq_holding p env hs, step_holding_registrada]
    by_cases hcf : (consumo p env).combustible_restante ≤ 10
    · rw [(activar_sets (consumo p env) (by rw [consumo_emergencia]; exact hem) hcf).2.2]
      rfl
    · rw [activar_not_trigger (consumo p env)
        (by rw [consumo_emergencia]; exact fun hc => hcf hc.2)]
      simp [consumo_registrada, consumo_emergencia, hreg, hem, hdraw]

/-- Witness for C4 at an aircraft crossing the fuel threshold in
holding. -/
theorem emergency_once_c4_witness :
    ((planeHoldLowFuel.emergencia = false →
      max 0 (planeHoldLowFuel.combustible_restante - 1) ≤ 10 →
      (planeHoldLowFuel.state = .arriving ∨ planeHoldLowFuel.state = .holding) →
      (Airplane.step planeHoldLowFuel envBase).1.emergencia = true ∧
        (Airplane.step planeHoldLowFuel envBase).1.prioridad = 2))
    ∧ (stepTrace planeHoldLowFuel [envBase]).2 ≤ 1
    ∧ (planeHoldLowFuel.emergencia_registrada = false →
        planeHoldLowFuel.emergencia = false →
        max 0 (planeHoldLowFuel.combustible_restante - 1) ≤ 10 →
        (planeHoldLowFuel.state = .arriving ∨ planeHoldLowFuel.state = .holding) →
        (stepTrace planeHoldLowFuel (envBase :: [envBase])).2 = 1)
    ∧ (planeHoldLowFuel.emergencia_registrada = false →
        planeHoldLowFuel.emergencia = false →
        planeHoldLowFuel.state = .holding → envBase.goaround_draw = true →
        (stepTrace planeHoldLowFuel (envBase :: [envBase])).2 = 1) :=
  emergency_once_c4 planeHoldLowFuel envBase [envBase]

/-- Counterexample to C4 as stated: `planeWaitingLowFuel` is a reachable
configuration (see its doc comment) in state `waiting` with the
emergency flag unset and fuel 5 ≤ 10, i.e. this is the first tick at
which the low-fuel condition holds with the flag unset; the claim
demands `isEmergency = true` and `priority = 2` at the end of this
tick, but the `waiting` branch resolves the freshly set emergency in
the same tick: the step ends with the flag false and priority 1. -/
theorem emergency_once_c4_counterexample :
    planeWaitingLowFuel.emergencia = false ∧
      planeWaitingLowFuel.combustible_restante ≤ 10 ∧
      (Airplane.step planeWaitingLowFuel envBase).1.emergencia = false ∧
      (Airplane.step planeWaitingLowFuel envBase).1.prioridad = 1 := by
  decide

theorem step_punctuality (p : Airplane) (env : StepEnv) :
    (Airplane.step p env).1.punctuality_status = p.punctuality_status := by
  have hact : (activar_emergencia (consumo p env)).1.punctuality_status =
      p.punctuality_status := by
    rw [activar_punctuality, consumo_punctuality]
  cases hs : p.state
  case arriving => rw [step_eq_arriving p env hs, step_arriving_punctuality]; exact hact
  case holding => rw [step_eq_holding p env hs, step_holding_punctuality]; exact hact
  case waiting => rw [step_eq_waiting p env hs, step_waiting_punctuality]; exact hact
  case queued_departure => rw [step_eq_queued p env hs]; exact hact
  case departing => rw [step_eq_departing p env hs, step_departing_punctuality]; exact hact
  case diverted => rw [step_eq_diverted p env hs, step_diverted_punctuality]; exact hact
  case gone => rw [step_eq_gone p env hs]; exact hact

/-! ## C9 — punctuality status is never updated by the simulation -/

/-- C9.  The pieces the claim describes are present in the code:
`update_punctuality` classifies delayed / early / on-time with the
±10-minute tolerance, and the dynamic score adds +0.1 for a delayed
aircraft and −0.05 for an early one.  But no code path ever calls
`update_punctuality`: `Airplane.step` leaves `punctuality_status`
untouched in every state, so the status does not track the
scheduled-versus-actual clock as the simulation runs — after a single
tick the sample aircraft's clock difference is below −10 (its own
`update_punctuality` would say `early`) while its status is still the
initial `on_time`. -/
theorem punctuality_dead_code_c9 :
    (∀ (p : Airplane) (env : StepEnv),
      (Airplane.step p env).1.punctuality_status = p.punctuality_status)
    ∧ (∀ p : Airplane,
        (p.actual_arrival_time - p.scheduled_arrival_time > 10 →
          p.update_punctuality.punctuality_status = .delayed)
        ∧ (p.actual_arrival_time - p.scheduled_arrival_time < -10 →
          p.update_punctuality.punctuality_status = .early)
        ∧ (-10 ≤ p.actual_arrival_time - p.scheduled_arrival_time →
          p.actual_arrival_time - p.scheduled_arrival_time ≤ 10 →
          p.update_punctuality.punctuality_status = .on_time))
    ∧ (∀ (pesos : Pesos) (mid : Nat) (p : Airplane),
        calcular_score pesos mid { p with punctuality_status := .delayed } =
          calcular_score pesos mid { p with punctuality_status := .on_time } + 1/10
        ∧ calcular_score pesos mid { p with punctuality_status := .early } =
          calcular_score pesos mid { p with punctuality_status := .on_time } - 5/100)
    ∧ (Airplane.step planeBase envBase).1.actual_arrival_time -
        (Airplane.step planeBase envBase).1.scheduled_arrival_time < -10
    ∧ (Airplane.step planeBase envBase).1.punctuality_status = .on_time
    ∧ ((Airplane.step planeBase envBase).1.update_punctuality).punctuality_status =
        .early := by
  refine ⟨step_punctuality, ?_, ?_, by decide, by decide, by decide⟩
  · intro p
    refine ⟨fun h => ?_, fun h => ?_, fun h1 h2 => ?_⟩ <;>
      simp only [Airplane.update_punctuality] <;> split_ifs <;> simp_all <;> omega
  · intro pesos mid p
    constructor <;> (simp [calcular_score]; try ring)

/-- Witness for C9: the dead-code conjunct applied at a concrete
aircraft. -/
theorem punctuality_dead_code_c9_witness :
    (Airplane.step planeBase envBase).1.punctuality_status =
      planeBase.punctuality_status :=
  punctuality_dead_code_c9.1 planeBase envBase

/-! ## C8 — the four adaptive weight vectors each sum to 1 -/

/-- C8.  Whatever the weather regime, the holding set and the ground
capacity, the weight vector chosen by
`_calcular_pesos_adaptativos` (one of the four branch vectors) has
components summing to 1.0 within 1e-9 (in fact exactly 1). -/
theorem pesos_sum_c8 (clima : Clima) (holding_planes : List Airplane)
    (max_ground : Int) :
    |((calcular_pesos_adaptativos clima holding_planes max_ground).prioridad +
        (calcular_pesos_adaptativos clima holding_planes max_ground).combustible +
        (calcular_pesos_adaptativos clima holding_planes max_ground).holding +
        (calcular_pesos_adaptativos clima holding_planes max_ground).fifo) - 1|
      ≤ 1 / 1000000000 := by
  simp only [calcular_pesos_adaptativos]
  split_ifs <;> norm_num

/-! ## C7 — removal clears the engine collections but not the fleet -/

/-- Counterexample to C7 as stated: a plane referenced by all four
collections is removed from the engine's plane list, the holding set
and the departure queue, but `remove_plane` contains no removal from
the airline's `fleet`, so it stays referenced there. -/
theorem remove_plane_c7_counterexample :
    (remove_plane ⟨[7], [7], [7], [7]⟩ 7).holding_planes = [] ∧
      (remove_plane ⟨[7], [7], [7], [7]⟩ 7).departure_queue = [] ∧
      (remove_plane ⟨[7], [7], [7], [7]⟩ 7).planes = [] ∧
      7 ∈ (remove_plane ⟨[7], [7], [7], [7]⟩ 7).fleet := by
  decide

/-- C7 (amended).  `remove_plane` removes the aircraft from the
engine's plane list, the holding set and the departure queue in the
same operation (so, these collections being duplicate-free, it is
referenced by none of them afterwards), but the owning airline's
`fleet` list is left unchanged — the fleet is a historical record the
airline metrics keep iterating. -/
theorem remove_plane_c7 (c : Collections) (pid : Nat)
    (h1 : c.planes.Nodup) (h2 : c.holding_planes.Nodup)
    (h3 : c.departure_queue.Nodup) :
    pid ∉ (remove_plane c pid).planes ∧
      pid ∉ (remove_plane c pid).holding_planes ∧
      pid ∉ (remove_plane c pid).departure_queue ∧
      (remove_plane c pid).fleet = c.fleet := by
  refine ⟨?_, ?_, ?_, rfl⟩
  · exact h1.not_mem_erase
  · exact h2.not_mem_erase
  · exact h3.not_mem_erase

/-- Witness for C7 at a concrete collection state. -/
theorem remove_plane_c7_witness :
    7 ∉ (remove_plane ⟨[5, 7], [7], [], [7]⟩ 7).planes ∧
      7 ∉ (remove_plane ⟨[5, 7], [7], [], [7]⟩ 7).holding_planes ∧
      7 ∉ (remove_plane ⟨[5, 7], [7], [], [7]⟩ 7).departure_queue ∧
      (remove_plane ⟨[5, 7], [7], [], [7]⟩ 7).fleet =
        (⟨[5, 7], [7], [], [7]⟩ : Collections).fleet :=
  remove_plane_c7 ⟨[5, 7], [7], [], [7]⟩ 7 (by decide) (by decide) (by decide)

/-! ## C6 — the fuel-priority ordering -/

theorem fuel_score_trans (a b c : Airplane)
    (h1 : decide (fuel_score a ≤ fuel_score b) = true)
    (h2 : decide (fuel_score b ≤ fuel_score c) = true) :
    decide (fuel_score a ≤ fuel_score c) = true := by
  simp only [decide_eq_true_eq] at h1 h2 ⊢
  exact le_trans h1 h2

theorem fuel_score_total (a b : Airplane) :
    (decide (fuel_score a ≤ fuel_score b) ||
      decide (fuel_score b ≤ fuel_score a)) = true := by
  simpa using le_total (fuel_score a) (fuel_score b)

/-- Counterexample to C6 as stated: under `fuel_priority`, a
non-emergency aircraft with zero remaining fuel has `fuel_score` 0,
tying with every emergency aircraft; the sort is stable, so the
non-emergency aircraft keeps its earlier position and the emergency
aircraft is *not* placed before it. -/
theorem fuel_priority_c6_counterexample :
    planeNoEmZeroFuel.emergencia = false ∧ planeEmFullFuel.emergencia = true ∧
      (programar_aterrizaje towerBase [planeNoEmZeroFuel, planeEmFullFuel]).1 =
        [planeNoEmZeroFuel, planeEmFullFuel] := by
  refine ⟨rfl, rfl, ?_⟩
  have hpol : towerBase.control_policy = .fuel_priority := rfl
  have hsub : List.Sublist [planeNoEmZeroFuel, planeEmFullFuel]
      (List.mergeSort [planeNoEmZeroFuel, planeEmFullFuel]
        (fun a b => fuel_score a ≤ fuel_score b)) := by
    refine List.sublist_mergeSort fuel_score_trans fuel_score_total ?_ (List.Sublist.refl _)
    decide
  have hlen : ([planeNoEmZeroFuel, planeEmFullFuel] : List Airplane).length =
      (List.mergeSort [planeNoEmZeroFuel, planeEmFullFuel]
        (fun a b => fuel_score a ≤ fuel_score b)).length := by
    rw [List.length_mergeSort]
  simp only [programar_aterrizaje, hpol]
  rw [if_neg (by simp)]
  exact (hsub.eq_of_length hlen).symm

/-- C6 (amended).  Under the `fuel_priority` policy, provided every
non-emergency aircraft in the input has positive remaining fuel (which
the threshold rule guarantees for aircraft still flying un-flagged),
the output places every emergency aircraft before every non-emergency
one, and non-emergency aircraft are ordered by ascending remaining
fuel. -/
theorem fuel_priority_c6 (m : TowerState) (aviones : List Airplane)
    (hpol : m.control_policy = .fuel_priority)
    (hfuel : ∀ p ∈ aviones, p.emergencia = false → 0 < p.combustible_restante) :
    (programar_aterrizaje m aviones).1.Pairwise
      (fun a b => (b.emergencia = true → a.emergencia = true) ∧
        (a.emergencia = false → b.emergencia = false →
          a.combustible_restante ≤ b.combustible_restante)) := by
  by_cases hnil : aviones = []
  · simp [programar_aterrizaje, hnil]
  · have hout : (programar_aterrizaje m aviones).1 =
        aviones.mergeSort (fun a b => fuel_score a ≤ fuel_score b) := by
      simp only [programar_aterrizaje, hpol]
      rw [if_neg hnil]
    rw [hout]
    have hsorted : (aviones.mergeSort (fun a b => fuel_score a ≤ fuel_score b)).Pairwise
        (fun a b => decide (fuel_score a ≤ fuel_score b) = true) :=
      List.sorted_mergeSort fuel_score_trans fuel_score_total aviones
    refine hsorted.imp_of_mem ?_
    intro a b ha hb hle
    rw [List.mem_mergeSort] at ha hb
    simp only [decide_eq_true_eq] at hle
    constructor
    · intro hbe
      by_contra hae
      have hae' : a.emergencia = false := by
        cases h : a.emergencia
        · rfl
        · exact absurd h hae
      have h1 : fuel_score a = (a.combustible_restante : ℚ) := by
        simp [fuel_score, hae']
      have h2 : fuel_score b = 0 := by simp [fuel_score, hbe]
      have h3 := hfuel a ha hae'
      rw [h1, h2] at hle
      have : (0 : ℚ) < (a.combustible_restante : ℚ) := by exact_mod_cast h3
      linarith
    · intro hae hbe
      have h1 : fuel_score a = (a.combustible_restante : ℚ) := by
        simp [fuel_score, hae]
      have h2 : fuel_score b = (b.combustible_restante : ℚ) := by
        simp [fuel_score, hbe]
      rw [h1, h2] at hle
      exact_mod_cast hle

/-- Witness for C6 at a concrete two-aircraft holding set. -/
theorem fuel_priority_c6_witness :
    (programar_aterrizaje towerBase [planeEmFullFuel, planeNoEmSomeFuel]).1.Pairwise
      (fun a b => (b.emergencia = true → a.emergencia = true) ∧
        (a.emergencia = false → b.emergencia = false →
          a.combustible_restante ≤ b.combustible_restante)) :=
  fuel_priority_c6 towerBase [planeEmFullFuel, planeNoEmSomeFuel] rfl (by decide)

theorem marcar_length (l : List Airplane) :
    (marcar_retrasados l).length = l.length := by
  simp only [marcar_retrasados]
  split_ifs <;> simp

theorem programar_length (m : TowerState) (l : List Airplane) :
    (programar_aterrizaje m l).1.length = l.length := by
  by_cases h : l = []
  · simp [programar_aterrizaje, h]
  · simp only [programar_aterrizaje, if_neg h]
    cases hp : m.control_policy <;> simp

/-! ## C1 — arrival management releases at most the allowed minimum -/

/-- C1.  `gestionar_llegadas` is a no-op when free ground capacity is
non-positive or the holding set is empty; otherwise it removes exactly
`min(freeCapacity, maxReleasePerTick, |holdingSet|)` aircraft from the
front of the reordered holding set (so never more than any of the three
bounds), each released aircraft that was in state `holding` is
transitioned to `arriving` with `holding_time` reset to 0, and no
released aircraft is left in state `holding`. -/
theorem gestionar_llegadas_c1 (m : TowerState) :
    ((m.max_ground - m.on_ground ≤ 0 ∨ m.holding_planes = []) →
      gestionar_llegadas m = (m, [], 0))
    ∧ (gestionar_llegadas m).2.1.length ≤ (m.max_ground - m.on_ground).toNat
    ∧ (gestionar_llegadas m).2.1.length ≤ m.max_release_per_step
    ∧ (gestionar_llegadas m).2.1.length ≤ m.holding_planes.length
    ∧ (gestionar_llegadas m).1.holding_planes.length +
        (gestionar_llegadas m).2.1.length = m.holding_planes.length
    ∧ (∀ p ∈ (programar_aterrizaje m (marcar_retrasados m.holding_planes)).1.take
          (min (m.max_ground - m.on_ground).toNat
            (min m.max_release_per_step
              (programar_aterrizaje m (marcar_retrasados m.holding_planes)).1.length)),
        p.state = .holding →
          liberar p ∈ (gestionar_llegadas m).2.1 ∧
            (liberar p).state = .arriving ∧ (liberar p).holding_time = 0)
    ∧ (∀ q ∈ (gestionar_llegadas m).2.1, q.state ≠ .holding) := by
  by_cases hg : m.max_ground - m.on_ground ≤ 0 ∨ m.holding_planes = []
  · have hr : gestionar_llegadas m = (m, [], 0) := by
      simp only [gestionar_llegadas]
      rw [if_pos hg]
    have htake : (programar_aterrizaje m (marcar_retrasados m.holding_planes)).1.take
        (min (m.max_ground - m.on_ground).toNat
          (min m.max_release_per_step
            (programar_aterrizaje m (marcar_retrasados m.holding_planes)).1.length)) =
        [] := by
      rcases hg with hg | hg
      · have h0 : (m.max_ground - m.on_ground).toNat = 0 := by omega
        simp [h0]
      · simp [hg, marcar_retrasados, programar_aterrizaje]
    rw [hr, htake]
    exact ⟨fun _ => rfl, by simp, by simp, by simp, by simp, by simp, by simp⟩
  · have hrel : (gestionar_llegadas m).2.1 =
        ((programar_aterrizaje m (marcar_retrasados m.holding_planes)).1.take
          (min (m.max_ground - m.on_ground).toNat
            (min m.max_release_per_step
              (programar_aterrizaje m (marcar_retrasados m.holding_planes)).1.length))).map
          liberar := by
      simp only [gestionar_llegadas]
      rw [if_neg hg]
    have hdrop : (gestionar_llegadas m).1.holding_planes =
        (programar_aterrizaje m (marcar_retrasados m.holding_planes)).1.drop
          (min (m.max_ground - m.on_ground).toNat
            (min m.max_release_per_step
              (programar_aterrizaje m (marcar_retrasados m.holding_planes)).1.length)) := by
      simp only [gestionar_llegadas]
      rw [if_neg hg]
    have hlen : (programar_aterrizaje m (marcar_retrasados m.holding_planes)).1.length =
        m.holding_planes.length := by
      rw [programar_length, marcar_length]
    refine ⟨fun hc => absurd hc hg, ?_, ?_, ?_, ?_, ?_, ?_⟩
    · rw [hrel]
      simp only [List.length_map, List.length_take]
      omega
    · rw [hrel]
      simp only [List.length_map, List.length_take]
      omega
    · rw [hrel]
      simp only [List.length_map, List.length_take]
      omega
    · rw [hrel, hdrop]
      simp only [List.length_map, List.length_take, List.length_drop]
      omega
    · intro p hp hps
      rw [hrel]
      refine ⟨List.mem_map_of_mem liberar hp, ?_, ?_⟩ <;> simp [liberar, hps]
    · intro q hq
      rw [hrel] at hq
      rcases List.mem_map.mp hq with ⟨p, hpmem, hpq⟩
      rw [← hpq]
      simp only [liberar]
      split_ifs with hps <;> simp [hps]

/-- Witness for C1 at a concrete tower state. -/
theorem gestionar_llegadas_c1_witness :
    ((towerBase.max_ground - towerBase.on_ground ≤ 0 ∨
        towerBase.holding_planes = []) →
      gestionar_llegadas towerBase = (towerBase, [], 0))
    ∧ (gestionar_llegadas towerBase).2.1.length ≤
        (towerBase.max_ground - towerBase.on_ground).toNat
    ∧ (gestionar_llegadas towerBase).2.1.length ≤ towerBase.max_release_per_step
    ∧ (gestionar_llegadas towerBase).2.1.length ≤ towerBase.holding_planes.length
    ∧ (gestionar_llegadas towerBase).1.holding_planes.length +
        (gestionar_llegadas towerBase).2.1.length =
        towerBase.holding_planes.length
    ∧ (∀ p ∈ (programar_aterrizaje towerBase
          (marcar_retrasados towerBase.holding_planes)).1.take
          (min (towerBase.max_ground - towerBase.on_ground).toNat
            (min towerBase.max_release_per_step
              (programar_aterrizaje towerBase
                (marcar_retrasados towerBase.holding_planes)).1.length)),
        p.state = .holding →
          liberar p ∈ (gestionar_llegadas towerBase).2.1 ∧
            (liberar p).state = .arriving ∧ (liberar p).holding_time = 0)
    ∧ (∀ q ∈ (gestionar_llegadas towerBase).2.1, q.state ≠ .holding) :=
  gestionar_llegadas_c1 towerBase

theorem salidas_aux_inv (t : Int) (ht : 1 ≤ t) :
    ∀ (rws : List Runway) (dq : List Nat),
      (∀ rw ∈ rws, (rw.busy = false → rw.remaining = 0 ∧ rw.plane = none) ∧
        (rw.busy = true → 1 ≤ rw.remaining)) →
      ∀ rw ∈ (gestionar_salidas_aux t rws dq).1,
        (rw.busy = false → rw.remaining = 0 ∧ rw.plane = none) ∧
          (rw.busy = true → 1 ≤ rw.remaining)
  | [], dq, hinv => by simp [gestionar_salidas_aux]
  | rw0 :: rest, dq, hinv => by
    have hrest : ∀ rw ∈ rest, (rw.busy = false → rw.remaining = 0 ∧ rw.plane = none) ∧
        (rw.busy = true → 1 ≤ rw.remaining) :=
      fun rw hrw => hinv rw (List.mem_cons_of_mem rw0 hrw)
    have h0 := hinv rw0 (List.mem_cons_self rw0 rest)
    intro rw hrw
    simp only [gestionar_salidas_aux] at hrw
    by_cases hb : rw0.busy = false
    · rw [if_pos hb] at hrw
      cases dq with
      | nil =>
        simp only at hrw
        rcases List.mem_cons.mp hrw with h | h
        · subst h; exact h0
        · exact salidas_aux_inv t ht rest [] hrest rw h
      | cons pid dq' =>
        simp only at hrw
        rcases List.mem_cons.mp hrw with h | h
        · subst h
          exact ⟨fun hc => absurd hc (by simp), fun _ => ht⟩
        · exact salidas_aux_inv t ht rest dq' hrest rw h
    · rw [if_neg hb] at hrw
      rcases List.mem_cons.mp hrw with h | h
      · subst h; exact h0
      · exact salidas_aux_inv t ht rest dq hrest rw h

theorem runway_inv_reach (t : Int) (ht : 1 ≤ t) (s : RunwayPoolState)
    (h : RunwayReach t s) :
    ∀ rw ∈ s.runways, (rw.busy = false → rw.remaining = 0 ∧ rw.plane = none) ∧
      (rw.busy = true → 1 ≤ rw.remaining) := by
  induction h with
  | init =>
    intro rw hrw
    simp only [initRunwayPool, List.mem_cons, List.not_mem_nil, or_false] at hrw
    rcases hrw with h | h <;> subst h <;>
      exact ⟨fun _ => ⟨rfl, rfl⟩, fun hc => absurd hc (by simp)⟩
  | update h ih =>
    intro rw hrw
    simp only [update_runways, List.mem_map] at hrw
    obtain ⟨rw0, h0, rfl⟩ := hrw
    have hi := ih rw0 h0
    simp only [update_runway]
    by_cases hb : rw0.busy
    · rw [if_pos hb]
      by_cases hr : rw0.remaining - 1 ≤ 0
      · rw [if_pos hr]
        have h1 := hi.2 hb
        exact ⟨fun _ => ⟨show rw0.remaining - 1 = 0 by omega, rfl⟩,
          fun hc => absurd hc (by simp)⟩
      · rw [if_neg hr]
        exact ⟨fun hc => absurd hc (by simp),
          fun _ => show (1 : Int) ≤ rw0.remaining - 1 by omega⟩
    · rw [if_neg hb]
      exact hi
  | salidas h ih =>
    intro rw hrw
    exact salidas_aux_inv t ht _ _ ih rw hrw
  | micro h ih =>
    intro rw hrw
    simp only [microburst_runways, List.mem_map] at hrw
    obtain ⟨rw0, h0, rfl⟩ := hrw
    exact ⟨fun hc => absurd hc (by simp), fun _ => by norm_num⟩
  | enqueue pid h ih => exact ih
  | dequeue pid h ih => exact ih

/-! ## C3 — runway slot invariant in every reachable state -/

/-- C3.  In every runway-pool state reachable from the initial pool
(under a takeoff-time configuration of at least one tick, as in every
scenario preset), a slot that is not busy has `remaining = 0` and no
occupant; and a slot references at most one aircraft. -/
theorem runway_invariant_c3 (t : Int) (s : RunwayPoolState) (rw : Runway)
    (ht : 1 ≤ t) (hreach : RunwayReach t s) (hrw : rw ∈ s.runways) :
    (rw.busy = false → rw.remaining = 0 ∧ rw.plane = none) ∧
      rw.plane.toList.length ≤ 1 := by
  refine ⟨(runway_inv_reach t ht s hreach rw hrw).1, ?_⟩
  cases rw.plane <;> simp

/-- Witness for C3 at the initial pool (takeoff time 3, the
`Equilibrio` preset). -/
theorem runway_invariant_c3_witness :
    ((⟨false, 0, none⟩ : Runway).busy = false →
      (⟨false, 0, none⟩ : Runway).remaining = 0 ∧
        (⟨false, 0, none⟩ : Runway).plane = none) ∧
      (⟨false, 0, none⟩ : Runway).plane.toList.length ≤ 1 :=
  runway_invariant_c3 3 initRunwayPool ⟨false, 0, none⟩ (by norm_num)
    RunwayReach.init (by simp [initRunwayPool])

theorem consumo_pos (p : Airplane) (env : StepEnv) : (consumo p env).pos = p.pos := by
  simp only [consumo]
  split_ifs <;> rfl

theorem consumo_exit_target (p : Airplane) (env : StepEnv) :
    (consumo p env).exit_target = p.exit_target := by
  simp only [consumo]
  split_ifs <;> rfl

theorem activar_pos (p : Airplane) : (activar_emergencia p).1.pos = p.pos := by
  simp only [activar_emergencia]
  split_ifs <;> rfl

theorem activar_exit_target (p : Airplane) :
    (activar_emergencia p).1.exit_target = p.exit_target := by
  simp only [activar_emergencia]
  split_ifs <;> rfl

theorem activar_eff_holding_removed (p : Airplane) :
    (activar_emergencia p).2.holding_removed = false := by
  simp only [activar_emergencia]
  split_ifs <;> rfl

theorem activar_eff_removal (p : Airplane) :
    (activar_emergencia p).2.removal_requested = false := by
  simp only [activar_emergencia]
  split_ifs <;> rfl

theorem step_diverted_pos (p : Airplane) (env : StepEnv) (eff : StepEffects) :
    (step_diverted p env eff).1.pos =
      move_towards env.grid_w env.grid_h p.pos p.exit_target := by
  simp only [step_diverted]
  split_ifs <;> rfl

theorem advance_time_frame (s : MState) :
    (advance_time s).planes = s.planes ∧
    (advance_time s).holding_planes = s.holding_planes ∧
    (advance_time s).departure_queue = s.departure_queue ∧
    (advance_time s).runways = s.runways ∧
    (advance_time s).airlines = s.airlines ∧
    (advance_time s).total_arrivals = s.total_arrivals ∧
    (advance_time s).total_departures = s.total_departures ∧
    (advance_time s).total_diverted = s.total_diverted ∧
    (advance_time s).emergency_events = s.emergency_events ∧
    (advance_time s).goaround_events = s.goaround_events ∧
    (advance_time s).total_holding_time_accumulated = s.total_holding_time_accumulated ∧
    (advance_time s).runway_busy_time = s.runway_busy_time := by
  simp only [advance_time]
  split_ifs <;>
    exact ⟨rfl, rfl, rfl, rfl, rfl, rfl, rfl, rfl, rfl, rfl, rfl, rfl⟩

theorem actualizar_clima_frame (d : ClimaDraws) (s : MState) :
    (actualizar_clima d s).planes = s.planes ∧
    (actualizar_clima d s).holding_planes = s.holding_planes ∧
    (actualizar_clima d s).departure_queue = s.departure_queue ∧
    (actualizar_clima d s).runways = s.runways ∧
    (actualizar_clima d s).airlines = s.airlines ∧
    (actualizar_clima d s).total_arrivals = s.total_arrivals ∧
    (actualizar_clima d s).total_departures = s.total_departures ∧
    (actualizar_clima d s).total_diverted = s.total_diverted ∧
    (actualizar_clima d s).emergency_events = s.emergency_events ∧
    (actualizar_clima d s).goaround_events = s.goaround_events ∧
    (actualizar_clima d s).total_holding_time_accumulated = s.total_holding_time_accumulated ∧
    (actualizar_clima d s).runway_busy_time = s.runway_busy_time := by
  simp only [actualizar_clima]
  cases s.clima_manual <;> split_ifs <;>
    exact ⟨rfl, rfl, rfl, rfl, rfl, rfl, rfl, rfl, rfl, rfl, rfl, rfl⟩

/-! ## C10 — the microburst tick short-circuits the engine step -/

/-- C10.  When the weather update of a tick yields `microburst`, the
engine step equals `aplicar_microburst` applied after the clock and
weather updates — for *every* possible "rest of the tick" `rest`, which
is precisely the statement that the arrival spawn, the runway
countdown, the scheduler, the aircraft steps and the airline cost
accrual never run.  All airborne aircraft are diverted (fuel and
position untouched, `total_diverted` incremented by their number,
irrespective of the `allow_diversion` flag, which the microburst path
never reads); every runway ends busy with `remaining = 999999`; the
holding set, the departure queue, the airlines and all other counters
are unchanged — in particular diverted aircraft stay in the holding
set, and a later `diverted`-state step never removes an aircraft from
the holding set and requests removal only on reaching its exit
point. -/
theorem microburst_short_circuit_c10 (d : ClimaDraws) (rest : MState → MState)
    (s : MState)
    (hmb : (actualizar_clima d (advance_time s)).clima_actual = .microburst) :
    AirportModel.step d rest s = aplicar_microburst (actualizar_clima d (advance_time s))
    ∧ (AirportModel.step d rest s).planes = s.planes.map microburst_divert
    ∧ (∀ p : Airplane,
        (microburst_divert p).combustible_restante = p.combustible_restante ∧
        (microburst_divert p).pos = p.pos ∧
        ((p.state = .arriving ∨ p.state = .holding) →
          (microburst_divert p).state = .diverted) ∧
        (¬(p.state = .arriving ∨ p.state = .holding) → microburst_divert p = p))
    ∧ (AirportModel.step d rest s).total_diverted = s.total_diverted +
        (s.planes.filter (fun p => p.state = .arriving ∨ p.state = .holding)).length
    ∧ (∀ rw ∈ (AirportModel.step d rest s).runways,
        rw.busy = true ∧ rw.remaining = 999999)
    ∧ (AirportModel.step d rest s).holding_planes = s.holding_planes
    ∧ (AirportModel.step d rest s).departure_queue = s.departure_queue
    ∧ (AirportModel.step d rest s).airlines = s.airlines
    ∧ (AirportModel.step d rest s).total_arrivals = s.total_arrivals
    ∧ (AirportModel.step d rest s).total_departures = s.total_departures
    ∧ (AirportModel.step d rest s).emergency_events = s.emergency_events
    ∧ (AirportModel.step d rest s).goaround_events = s.goaround_events
    ∧ (AirportModel.step d rest s).total_holding_time_accumulated =
        s.total_holding_time_accumulated
    ∧ (AirportModel.step d rest s).runway_busy_time = s.runway_busy_time
    ∧ (∀ (p : Airplane) (env : StepEnv), p.state = .diverted →
        (Airplane.step p env).2.holding_removed = false ∧
          ((Airplane.step p env).2.removal_requested = true →
            (Airplane.step p env).1.pos = p.exit_target)) := by
  have hadv := advance_time_frame s
  have hact := actualizar_clima_frame d (advance_time s)
  have hstep : AirportModel.step d rest s =
      aplicar_microburst (actualizar_clima d (advance_time s)) := by
    simp only [AirportModel.step]
    rw [if_pos hmb]
  have hplanes : (actualizar_clima d (advance_time s)).planes = s.planes :=
    hact.1.trans hadv.1
  refine ⟨hstep, ?_, ?_, ?_, ?_, ?_, ?_, ?_, ?_, ?_, ?_, ?_, ?_, ?_, ?_⟩
  · rw [hstep]
    show (actualizar_clima d (advance_time s)).planes.map microburst_divert = _
    rw [hplanes]
  · intro p
    simp only [microburst_divert]
    split_ifs with h <;> simp_all
  · rw [hstep]
    show (actualizar_clima d (advance_time s)).total_diverted +
        ((actualizar_clima d (advance_time s)).planes.filter _).length = _
    rw [hplanes, hact.2.2.2.2.2.2.2.1, hadv.2.2.2.2.2.2.2.1]
  · rw [hstep]
    intro rw hrw
    simp only [aplicar_microburst, List.mem_map] at hrw
    obtain ⟨rw0, h0, rfl⟩ := hrw
    exact ⟨rfl, rfl⟩
  · rw [hstep]
    exact (show (aplicar_microburst _).holding_planes = _ from rfl).trans
      (hact.2.1.trans hadv.2.1)
  · rw [hstep]
    exact (show (aplicar_microburst _).departure_queue = _ from rfl).trans
      (hact.2.2.1.trans hadv.2.2.1)
  · rw [hstep]
    exact (show (aplicar_microburst _).airlines = _ from rfl).trans
      (hact.2.2.2.2.1.trans hadv.2.2.2.2.1)
  · rw [hstep]
    exact (show (aplicar_microburst _).total_arrivals = _ from rfl).trans
      (hact.2.2.2.2.2.1.trans hadv.2.2.2.2.2.1)
  · rw [hstep]
    exact (show (aplicar_microburst _).total_departures = _ from rfl).trans
      (hact.2.2.2.2.2.2.1.trans hadv.2.2.2.2.2.2.1)
  · rw [hstep]
    exact (show (aplicar_microburst _).emergency_events = _ from rfl).trans
      (hact.2.2.2.2.2.2.2.2.1.trans hadv.2.2.2.2.2.2.2.2.1)
  · rw [hstep]
    exact (show (aplicar_microburst _).goaround_events = _ from rfl).trans
      (hact.2.2.2.2.2.2.2.2.2.1.trans hadv.2.2.2.2.2.2.2.2.2.1)
  · rw [hstep]
    exact (show (aplicar_microburst _).total_holding_time_accumulated = _ from rfl).trans
      (hact.2.2.2.2.2.2.2.2.2.2.1.trans hadv.2.2.2.2.2.2.2.2.2.2.1)
  · rw [hstep]
    exact (show (aplicar_microburst _).runway_busy_time = _ from rfl).trans
      (hact.2.2.2.2.2.2.2.2.2.2.2.trans hadv.2.2.2.2.2.2.2.2.2.2.2)
  · intro p env hs
    rw [step_eq_diverted p env hs]
    constructor
    · rw [step_diverted_holding_removed]
      exact activar_eff_holding_removed (consumo p env)
    · intro hr
      have hmv := step_diverted_removal _ env _
        (activar_eff_removal (consumo p env)) hr
      rw [step_diverted_pos]
      rw [activar_pos, consumo_pos, activar_exit_target, consumo_exit_target] at hmv ⊢
      exact hmv

/-- Witness for C10: the short-circuit equation at a concrete model
state whose weather override is `microburst`. -/
theorem microburst_short_circuit_c10_witness :
    AirportModel.step ⟨Clima.normal, 4⟩ id mstateBase =
      aplicar_microburst (actualizar_clima ⟨Clima.normal, 4⟩ (advance_time mstateBase)) :=
  (microburst_short_circuit_c10 ⟨Clima.normal, 4⟩ id mstateBase (by decide)).1

end EC3
